import Mathlib

/-!
Shallow embedding of the PhotoProof admin dashboard (Flask + SQLAlchemy) core:
the tenant data store (`src/database.py`), the signup wizard handlers
(`src/app.py`), the password hashing wrappers (`src/auth.py`), and the
domain-availability API.  The relational store is modelled as explicit lists of
rows; SQLAlchemy column defaults become Lean structure field defaults; the
environment-supplied values (uuid4 identities, bcrypt salts, file-upload
results, database error text) are passed as explicit parameters.  Timestamp
columns (`created_at`, `updated_at`, `verified_at`, `last_login_at`) carry no
logic in the reviewed code and are omitted from the row models.
-/

namespace PhotoProof

/-- Python `str.lower()` : character-wise lowering. -/
def pyLower (s : String) : String := String.mk (s.data.map Char.toLower)

/-- Python `str.replace(pat, rep)` on the underlying character list, for a
single-character pattern (the only form the embedded code uses): every
occurrence of the character `a` is replaced by `rep`, scanning left to right. -/
def pyReplaceChar (a : Char) (rep : List Char) : List Char → List Char
  | [] => []
  | c :: rest =>
    if c == a then rep ++ pyReplaceChar a rep rest
    else c :: pyReplaceChar a rep rest

/-- Python `s.replace(pat, rep)` for a one-character pattern `a`. -/
def pyReplace (s : String) (a : Char) (rep : String) : String :=
  String.mk (pyReplaceChar a rep.data s.data)

/-- Auxiliary for the Python `in` substring operator. -/
def hasSubstrAux (pat : List Char) : List Char → Bool
  | [] => pat.isEmpty
  | c :: rest => pat.isPrefixOf (c :: rest) || hasSubstrAux pat rest

/-- Python `pat in s` for strings: substring containment. -/
def pyIn (pat s : String) : Bool := hasSubstrAux pat.data s.data

/-- Python `str(x)` for an optional string (`None` prints as "None"),
as interpolated by f-strings. -/
def pyStr (o : Option String) : String := o.getD "None"

/-- Python truthiness of an optional string: `None` and `""` are falsy. -/
def pyTruthy : Option String → Bool
  | none => false
  | some s => !s.isEmpty

/-!  Row models, from the SQLAlchemy models in `src/database.py`.
Field defaults mirror the `Column(..., default=...)` declarations, which
SQLAlchemy applies at insert time when the constructor leaves a column unset. -/

/-- A row of the `studios` table (`class Studio`). -/
structure Studio where
  id : String
  name : String
  email : String
  phone : Option String := none
  address : Option String := none
  subdomain : Option String := none
  logo_url : Option String := none
  brand_color : String := "#1e293b"
  typography : String := "System Default (Inter & Cormorant)"
  default_layout_id : String := "layout1"
  default_template_id : String := "modern"
  studio_photo : Option String := none
  studio_description : Option String := none
  custom_css : Option String := none
  subscription_tier : String := "free"
  subscription_status : String := "trial"
  max_projects : Int := 5
  max_storage_gb : Int := 10
  storage_used_bytes : Int := 0
  onboarding_completed : Bool := false
  onboarding_step : Option String := none
  is_active : Bool := true
deriving Repr, DecidableEq

/-- A row of the `studio_domains` table (`class StudioDomain`). -/
structure StudioDomain where
  id : String
  studio_id : String
  domain : String
  subdomain : Option String := none
  is_primary : Bool := true
  is_verified : Bool := false
  verification_token : Option String := none
  verification_method : Option String := none
deriving Repr, DecidableEq

/-- A row of the `users` table (`class User`). -/
structure User where
  id : String
  studio_id : Option String := none
  name : String
  email : String
  username : String
  password_hash : Option String := none
  role : String := "client"
  avatar_url : Option String := none
  phone : Option String := none
  is_active : Bool := true
  email_verified : Bool := false
deriving Repr, DecidableEq

/-- A row of the `studio_features` table (`class StudioFeature`);
the JSON `config` column is carried as an opaque optional string. -/
structure StudioFeature where
  id : String
  studio_id : String
  feature_key : String
  enabled : Bool := true
  config : Option String := none
deriving Repr, DecidableEq

/-- The committed state of the relational store: the four tables. -/
structure DB where
  studios : List Studio := []
  studio_domains : List StudioDomain := []
  users : List User := []
  studio_features : List StudioFeature := []
deriving Repr, DecidableEq

/-- Update the first element satisfying `p` by `f`, leaving the rest alone.
This models mutating the object returned by a SQLAlchemy `query(...).first()`. -/
def updateFirst (p : α → Bool) (f : α → α) : List α → List α
  | [] => []
  | x :: xs => if p x then f x :: xs else x :: updateFirst p f xs

/-!  Store helper functions, from `src/database.py`. -/

/-- Row construction part of `create_studio` (`src/database.py` lines 142-185):
builds the Studio row, its primary StudioDomain row and its owner User row with
exactly the keyword arguments of the source (every other column keeps its
schema default).  The three uuid4 identities are environment-supplied
parameters.  The `db.add`/`db.flush` staging is modelled at the call site
(`signup_branding`), which decides whether the enclosing transaction commits. -/
def create_studio (name subdomain domain owner_email owner_name password_hash : String)
    (plan : String) (studio_id domain_id user_id : String) :
    Studio × StudioDomain × User :=
  let studio : Studio :=
    { id := studio_id
      name := name
      email := owner_email
      subdomain := some subdomain
      onboarding_step := some "pending"
      onboarding_completed := false
      subscription_tier := plan
      subscription_status := "trial" }
  let studio_domain : StudioDomain :=
    { id := domain_id
      studio_id := studio.id
      domain := domain
      is_primary := true
      is_verified := false }
  let user : User :=
    { id := user_id
      studio_id := some studio.id
      name := owner_name
      email := owner_email
      username := owner_email
      password_hash := some password_hash
      role := "studio_owner" }
  (studio, studio_domain, user)

/-- `provision_studio` (`src/database.py` lines 215-222): looks the studio up
by id; when found, sets `onboarding_step = "completed"` and
`onboarding_completed = True` and commits; returns the (updated) studio, or
`none` when no row matches. -/
def provision_studio (db : DB) (studio_id : String) : DB × Option Studio :=
  match db.studios.find? (fun s => s.id == studio_id) with
  | some s =>
    let s' := { s with onboarding_step := some "completed", onboarding_completed := true }
    let studios' :=
      updateFirst (fun t => t.id == studio_id)
        (fun t => { t with onboarding_step := some "completed", onboarding_completed := true })
        db.studios
    ({ db with studios := studios' }, some s')
  | none => (db, none)

/-- `toggle_feature` (`src/database.py` lines 225-244): looks up the first
feature row for `(studio_id, feature_key)`; if found, sets its `enabled`
field, else inserts a fresh row (uuid4 id supplied as `new_id`); commits.
Returns the new store and the affected row. -/
def toggle_feature (db : DB) (new_id : String) (studio_id feature_key : String)
    (enabled : Bool) : DB × StudioFeature :=
  match db.studio_features.find?
      (fun r => r.studio_id == studio_id && r.feature_key == feature_key) with
  | some r =>
    let features' :=
      updateFirst (fun x => x.studio_id == studio_id && x.feature_key == feature_key)
        (fun x => { x with enabled := enabled })
        db.studio_features
    ({ db with studio_features := features' }, { r with enabled := enabled })
  | none =>
    let feature : StudioFeature :=
      { id := new_id
        studio_id := studio_id
        feature_key := feature_key
        enabled := enabled }
    ({ db with studio_features := db.studio_features ++ [feature] }, feature)

/-!  Password hashing, from `src/auth.py`.  The bcrypt primitives
(`bcrypt.gensalt`, `bcrypt.hashpw`, `bcrypt.checkpw`) are library code outside
this repository; they are modelled by their documented contract: `hashpw`
emits `$2b$12$` + a 22-character salt + a digest determined by (salt,
password); `checkpw` parses the stored hash, recomputes the digest with the
parsed salt and compares, raising (modelled as `Except.error`) when the
stored hash is malformed.  The digest is modelled as an arbitrary fixed
function injective in the password for a fixed salt; its cryptographic
properties are not under study here. -/

/-- Model of the bcrypt digest for a given salt and password (injective in
the password for a fixed salt, which is all the verified properties use). -/
def bcryptDigest (salt password : List Char) : List Char :=
  password ++ salt

/-- The `$2b$12$` prefix of a modelled bcrypt hash. -/
def bcryptPre : List Char := "$2b$12$".data

/-- Model of `bcrypt.hashpw(password, salt)`: prefix, then the 22-character
salt, then the digest. -/
def bcryptHashpw (password salt : List Char) : List Char :=
  bcryptPre ++ salt ++ bcryptDigest salt password

/-- Parse a modelled bcrypt hash into its salt and digest; `none` on a
malformed hash (wrong prefix or too short to hold a 22-character salt). -/
def bcryptParse (h : List Char) : Option (List Char × List Char) :=
  if bcryptPre.isPrefixOf h ∧ 29 ≤ h.length then
    some ((h.drop 7).take 22, h.drop 29)
  else
    none

/-- Model of `bcrypt.checkpw(password, hashed)`: recompute and compare;
raises (an `Except.error`) on a malformed stored hash. -/
def bcryptCheckpw (password hashed : List Char) : Except String Bool :=
  match bcryptParse hashed with
  | some (salt, digest) => Except.ok (bcryptDigest salt password == digest)
  | none => Except.error "Invalid salt"

/-- `hash_password` (`src/auth.py` lines 6-8): `bcrypt.hashpw(password,
bcrypt.gensalt())`; the random salt from `gensalt` is an explicit parameter. -/
def hash_password (password : String) (salt : String) : String :=
  String.mk (bcryptHashpw password.data salt.data)

/-- `verify_password` (`src/auth.py` lines 11-16): `bcrypt.checkpw` wrapped in
`try/except` returning `False` on any exception. -/
def verify_password (password hashed : String) : Bool :=
  match bcryptCheckpw password.data hashed.data with
  | Except.ok b => b
  | Except.error _ => false

/-!  Signup wizard, from `src/app.py`.  The Flask session dictionary is
modelled by the seven wizard keys; `session["k"] = v` sets a field to `some v`
and `session.pop("k", None)` sets it back to `none`. -/

/-- The per-browser wizard session record: the seven `signup_*` session keys. -/
structure Session where
  signup_studio_name : Option String := none
  signup_domain : Option String := none
  signup_email : Option String := none
  signup_owner_name : Option String := none
  signup_password : Option String := none
  signup_subdomain : Option String := none
  signup_plan : Option String := none
deriving Repr, DecidableEq

/-- The combined server state a request handler sees: committed store plus
the requesting browser's session. -/
structure ServerState where
  db : DB
  sess : Session
deriving Repr, DecidableEq

/-- The step-1 form fields (`src/app.py` lines 45-50).  The embedded claims
concern submissions with all fields present, so they are carried as strings. -/
structure SignupForm where
  studio_name : String
  domain : String
  email : String
  owner_name : String
  password : String
  confirm_password : String
deriving Repr, DecidableEq

/-- Candidate subdomain derivation (`src/app.py` line 67):
`studio_name.lower().replace(" ", "-").replace("\x27", "")`. -/
def deriveSubdomain (studio_name : String) : String :=
  pyReplace (pyReplace (pyLower studio_name) ' ' "-") '\x27' ""

/-- What `POST /signup` responds with. -/
inductive SignupOutcome where
  | stay (flashMsg : String)
  | toPlan
deriving Repr, DecidableEq

/-- `signup` POST branch (`src/app.py` lines 44-69): validate the password
pair, then stash all fields (and the derived subdomain) in the session and
redirect to the plan step.  The handler opens no database session. -/
def signupPost (st : ServerState) (f : SignupForm) : ServerState × SignupOutcome :=
  if f.password ≠ f.confirm_password then
    (st, SignupOutcome.stay "Passwords do not match")
  else if f.password.length < 8 then
    (st, SignupOutcome.stay "Password must be at least 8 characters")
  else
    let sess' : Session :=
      { st.sess with
        signup_studio_name := some f.studio_name
        signup_domain := some f.domain
        signup_email := some f.email
        signup_owner_name := some f.owner_name
        signup_password := some f.password
        signup_subdomain := some (deriveSubdomain f.studio_name) }
    ({ st with sess := sess' }, SignupOutcome.toPlan)

/-- What `POST /signup/plan` responds with. -/
inductive PlanOutcome where
  | toSignup
  | toBranding
deriving Repr, DecidableEq

/-- `signup_plan` POST branch (`src/app.py` lines 74-83): guard on the wizard
record existing, then store the chosen plan (default `"starter"` when the
field is missing) and redirect to the branding step. -/
def signupPlanPost (st : ServerState) (plan : Option String) : ServerState × PlanOutcome :=
  if st.sess.signup_studio_name = none then
    (st, PlanOutcome.toSignup)
  else
    ({ st with sess := { st.sess with signup_plan := some (plan.getD "starter") } },
     PlanOutcome.toBranding)

/-- Uniqueness columns of the schema: inserting the three signup rows raises
an IntegrityError iff the new studio's email or subdomain, the new domain
string, or the new user's email or username collides with a committed row
(`unique=True` on `studios.email`, `studios.subdomain`, `studio_domains.domain`,
`users.email`, `users.username`). -/
def insertViolation (db : DB) (st : Studio) (d : StudioDomain) (u : User) : Bool :=
  db.studios.any (fun s => s.email == st.email) ||
  db.studios.any (fun s => s.subdomain == st.subdomain && s.subdomain.isSome) ||
  db.studio_domains.any (fun x => x.domain == d.domain) ||
  db.users.any (fun x => x.email == u.email || x.username == u.username)

/-- Error-message translation in the `except` branch of `signup_branding`
(`src/app.py` lines 165-172): substring-match the raised error text for the
subdomain index name or "subdomain" (case-insensitively), else for the email
index name or "studios_email" (case-insensitively), else pass the text through. -/
def classifyError (sess : Session) (error_msg : String) : String :=
  if pyIn "ix_studios_subdomain" error_msg || pyIn "subdomain" (pyLower error_msg) then
    "The subdomain \x27" ++ pyStr sess.signup_subdomain ++
      "\x27 is already taken. Please go back and choose a different one."
  else if pyIn "ix_studios_email" error_msg || pyIn "studios_email" (pyLower error_msg) then
    "The email \x27" ++ pyStr sess.signup_email ++ "\x27 is already registered."
  else
    error_msg

/-- What `POST /signup/branding` responds with. -/
inductive BrandingOutcome where
  | toPlanStep
  | failRender (error_msg : String)
  | toComplete (studio_id : String)
deriving Repr, DecidableEq

/-- `signup_branding` POST branch (`src/app.py` lines 88-174).  Guard on the
plan being chosen; build the three rows via `create_studio`; apply the
branding fields to the in-flight studio row; commit.  Environment-supplied
parameters: the three uuid4 identities; `logo_url`/`photo_url`, the outcome of
the file-upload block (lines 100-129: `none` when skipped, absent, or an empty
filename); the bcrypt salt; `ext_fault`, whether the database layer raises for
a reason other than a uniqueness collision; and `err_text`, the text of the
raised error when the commit fails.  On failure nothing is committed, the
session is untouched, and the branding page is re-rendered with the translated
message; on success the three rows are committed and the seven wizard keys are
popped.  (The branding form fields arrive as `form.get` results; `brand_color`
and `typography` default when the field is missing.)  `brandingRows` names
the `create_studio` call on the session-held values. -/
def brandingRows (sess : Session) (salt studio_id domain_id user_id : String) :
    Studio × StudioDomain × User :=
  create_studio
    (sess.signup_studio_name.getD "")
    (sess.signup_subdomain.getD "")
    (sess.signup_domain.getD "")
    (sess.signup_email.getD "")
    (sess.signup_owner_name.getD "")
    (hash_password (sess.signup_password.getD "") salt)
    (sess.signup_plan.getD "")
    studio_id domain_id user_id

/-- Whether the commit of the three signup rows raises: an external database
fault, or a uniqueness collision with the committed store. -/
def brandingFails (st : ServerState) (salt studio_id domain_id user_id : String)
    (ext_fault : Bool) : Bool :=
  let rows := brandingRows st.sess salt studio_id domain_id user_id
  ext_fault || insertViolation st.db rows.1 rows.2.1 rows.2.2

def signupBrandingPost (st : ServerState)
    (brand_color typography : Option String)
    (logo_url photo_url : Option String)
    (studio_id domain_id user_id : String)
    (salt : String)
    (ext_fault : Bool) (err_text : String) : ServerState × BrandingOutcome :=
  if st.sess.signup_plan = none then
    (st, BrandingOutcome.toPlanStep)
  else
    let rows := brandingRows st.sess salt studio_id domain_id user_id
    let studio := rows.1
    let domainRow := rows.2.1
    let user := rows.2.2
    if brandingFails st salt studio_id domain_id user_id ext_fault then
      (st, BrandingOutcome.failRender (classifyError st.sess err_text))
    else
      let studio' :=
        { studio with
          brand_color := brand_color.getD "#0EA5E9"
          typography := typography.getD "Modern (Inter)"
          logo_url := if logo_url.isSome then logo_url else studio.logo_url
          studio_photo := if photo_url.isSome then photo_url else studio.studio_photo }
      let db' : DB :=
        { st.db with
          studios := st.db.studios ++ [studio']
          studio_domains := st.db.studio_domains ++ [domainRow]
          users := st.db.users ++ [user] }
      ({ db := db', sess := {} }, BrandingOutcome.toComplete studio_id)

/-- Response of `GET /api/check-domain`. -/
inductive CheckDomainResp where
  | required
  | result (available : Bool) (domain : String)
deriving Repr, DecidableEq

/-- `check_domain` (`src/app.py` lines 377-388): `request.args.get("domain")`
is `none` when absent; `if not domain` catches both `None` and the empty
string (Python falsiness); otherwise availability is the absence of a
StudioDomain row with exactly that domain string. -/
def check_domain (db : DB) (domainArg : Option String) : CheckDomainResp :=
  if !pyTruthy domainArg then
    CheckDomainResp.required
  else
    let d := domainArg.getD ""
    CheckDomainResp.result (db.studio_domains.find? (fun x => x.domain == d)).isNone d

/-- The whole signup wizard run: step 1 (`POST /signup`), step 2
(`POST /signup/plan`), step 3 (`POST /signup/branding`), threading the server
state through and collecting the three responses. -/
def signupFlow (st0 : ServerState) (f : SignupForm) (planArg : Option String)
    (brand_color typography logo_url photo_url : Option String)
    (studio_id domain_id user_id salt : String)
    (ext_fault : Bool) (err_text : String) :
    ServerState × SignupOutcome × PlanOutcome × BrandingOutcome :=
  let r1 := signupPost st0 f
  let r2 := signupPlanPost r1.1 planArg
  let r3 := signupBrandingPost r2.1 brand_color typography logo_url photo_url
    studio_id domain_id user_id salt ext_fault err_text
  (r3.1, r1.2, r2.2, r3.2)

/-- Subdomain derivation as the spec words it, for comparison with
`deriveSubdomain`: the studio name lower-cased, with every space replaced by
a hyphen and every apostrophe removed. -/
def subdomainSpec (studio_name : String) : String :=
  String.mk
    (((studio_name.data.map Char.toLower).map
        (fun c => if c == ' ' then '-' else c)).filter
      (fun c => !(c == '\x27')))

/-!  Concrete fixtures used by witnesses and counterexamples. -/

/-- A 22-character salt, as `bcrypt.gensalt()` produces. -/
def exSalt : String := String.mk (List.replicate 22 'a')

/-- A fully valid step-1 submission. -/
def exForm : SignupForm :=
  { studio_name := "Jane\x27s Photo Co"
    domain := "janes.example.com"
    email := "jane@example.com"
    owner_name := "Jane Doe"
    password := "pw123456"
    confirm_password := "pw123456" }

/-- A step-1 submission whose password confirmation does not match. -/
def exBadForm : SignupForm :=
  { exForm with confirm_password := "different1" }

/-- A committed studio row. -/
def exStudio : Studio := { id := "s1", name := "Acme Studio", email := "owner@acme.test" }

/-- A store holding the one committed studio. -/
def exDB : DB := { studios := [exStudio] }

/-- A wizard session that has completed steps 1 and 2 with the owner email
already committed in `exDB` (so the final commit hits the email uniqueness
constraint). -/
def exConflictSession : Session :=
  { signup_studio_name := some "Acme Studio"
    signup_domain := some "acme.example.com"
    signup_email := some "owner@acme.test"
    signup_owner_name := some "Ann Owner"
    signup_password := some "pw123456"
    signup_subdomain := some "acme-studio"
    signup_plan := some "starter" }

/-- The server state for the conflicting completion attempt. -/
def exConflictState : ServerState := { db := exDB, sess := exConflictSession }

/-!  Theorems. -/

/-- C10: every Tenant row inserted by `create_studio` starts with
`is_active` true, `subscription_status` "trial", `subscription_tier` equal to
the given plan, `onboarding_step` "pending" and `onboarding_completed` false,
and its single TenantDomain row starts with `is_primary` true — a freshly
signed-up tenant is active but unprovisioned. -/
theorem create_studio_initial_fields
    (name subdomain domain owner_email owner_name password_hash plan sid did uid : String) :
    ((create_studio name subdomain domain owner_email owner_name password_hash
        plan sid did uid).1.is_active = true) ∧
    ((create_studio name subdomain domain owner_email owner_name password_hash
        plan sid did uid).1.subscription_status = "trial") ∧
    ((create_studio name subdomain domain owner_email owner_name password_hash
        plan sid did uid).1.subscription_tier = plan) ∧
    ((create_studio name subdomain domain owner_email owner_name password_hash
        plan sid did uid).1.onboarding_step = some "pending") ∧
    ((create_studio name subdomain domain owner_email owner_name password_hash
        plan sid did uid).1.onboarding_completed = false) ∧
    ((create_studio name subdomain domain owner_email owner_name password_hash
        plan sid did uid).2.1.is_primary = true) :=
  ⟨rfl, rfl, rfl, rfl, rfl, rfl⟩

/-- C6: `provision_studio` on an existing id sets `onboarding_step` to
"completed" and `onboarding_completed` to true in the committed store and
returns the updated tenant; on a non-existent id it returns `none`, does not
raise, and leaves every row unchanged. -/
theorem provision_studio_spec (db : DB) (sid : String) :
    (db.studios.find? (fun s => s.id == sid) = none →
      provision_studio db sid = (db, none)) ∧
    (∀ s, db.studios.find? (fun t => t.id == sid) = some s →
      (provision_studio db sid).2 =
        some { s with onboarding_step := some "completed", onboarding_completed := true } ∧
      (provision_studio db sid).1 =
        { db with studios :=
            (updateFirst (fun t => t.id == sid)
              (fun t => { t with onboarding_step := some "completed",
                                 onboarding_completed := true })
              db.studios) }) := by
  constructor
  · intro h
    simp [provision_studio, h]
  · intro s h
    simp [provision_studio, h]

/-- Witness for C6: in the one-studio fixture store, provisioning a missing
id is the identity with an absent result, and provisioning "s1" returns the
completed row. -/
theorem provision_studio_spec_witness :
    provision_studio exDB "missing" = (exDB, none) ∧
    (provision_studio exDB "s1").2 =
      some { exStudio with onboarding_step := some "completed",
                           onboarding_completed := true } :=
  ⟨(provision_studio_spec exDB "missing").1 (by decide),
   ((provision_studio_spec exDB "s1").2 exStudio (by decide)).1⟩

/-- C9: an empty-string domain parameter is treated identically to a missing
one: the handler answers "Domain required" and performs no availability
lookup. -/
theorem check_domain_empty_param (db : DB) :
    check_domain db (some "") = CheckDomainResp.required ∧
    check_domain db (some "") = check_domain db none :=
  ⟨rfl, rfl⟩

/-- C8 counterexample: a present but empty domain parameter does not produce
an availability result (the claim would demand `result true ""` on an empty
store); the handler answers "Domain required" instead. -/
theorem check_domain_empty_counterexample :
    check_domain {} (some "") = CheckDomainResp.required ∧
    check_domain {} (some "") ≠ CheckDomainResp.result true "" := by
  decide

/-- C8 (amended): with no domain parameter the response is the "Domain
required" error; with a nonempty domain parameter the response carries that
domain and is available iff no TenantDomain row has exactly that domain
string. -/
theorem check_domain_spec (db : DB) (d : String) (hd : d ≠ "") :
    check_domain db none = CheckDomainResp.required ∧
    ∃ b, check_domain db (some d) = CheckDomainResp.result b d ∧
      (b = true ↔ ∀ r ∈ db.studio_domains, r.domain ≠ d) := by
  refine ⟨rfl, (db.studio_domains.find? (fun x => x.domain == d)).isNone, ?_, ?_⟩
  · simp [check_domain, pyTruthy, String.isEmpty_iff, hd]
  · simp [Option.isNone_iff_eq_none, List.find?_eq_none]

/-- Witness for C8's amended theorem at the empty store and a nonempty
domain. -/
theorem check_domain_spec_witness :
    check_domain {} none = CheckDomainResp.required ∧
    ∃ b, check_domain {} (some "pix.example.com") =
        CheckDomainResp.result b "pix.example.com" ∧
      (b = true ↔ ∀ r ∈ (DB.studio_domains {}), r.domain ≠ "pix.example.com") :=
  check_domain_spec {} "pix.example.com" (by decide)

/-- Parsing a modelled bcrypt hash produced with a 22-character salt recovers
the salt and the digest. -/
theorem bcryptParse_hashpw (pw salt : List Char) (hs : salt.length = 22) :
    bcryptParse (bcryptHashpw pw salt) = some (salt, bcryptDigest salt pw) := by
  unfold bcryptParse bcryptHashpw
  rw [if_pos]
  · have h7 : bcryptPre.length = 7 := rfl
    have hdrop7 : ((bcryptPre ++ salt ++ bcryptDigest salt pw).drop 7) =
        salt ++ bcryptDigest salt pw := by
      rw [List.append_assoc, ← h7, List.drop_left]
    have htake : ((bcryptPre ++ salt ++ bcryptDigest salt pw).drop 7).take 22 = salt := by
      rw [hdrop7, ← hs, List.take_left]
    have hdrop29 : (bcryptPre ++ salt ++ bcryptDigest salt pw).drop 29 =
        bcryptDigest salt pw := by
      have h29 : (bcryptPre ++ salt).length = 29 := by
        simp [List.length_append, h7, hs]
      rw [← h29, List.drop_left]
    rw [htake, hdrop29]
  · constructor
    · rw [List.append_assoc, List.isPrefixOf_iff_prefix]
      exact List.prefix_append _ _
    · simp [List.length_append, hs, bcryptDigest]
      omega

/-- C5: verifying a password against its own fresh hash returns true;
verifying any other password against that hash returns false; and verifying
against any malformed stored hash returns false without raising (the
exception is swallowed inside `verify_password`). -/
theorem verify_password_spec (pw salt : String) (hsalt : salt.length = 22) :
    verify_password pw (hash_password pw salt) = true ∧
    (∀ other : String, other ≠ pw →
      verify_password other (hash_password pw salt) = false) ∧
    (∀ p h : String, bcryptParse h.data = none → verify_password p h = false) := by
  have hs : salt.data.length = 22 := hsalt
  refine ⟨?_, ?_, ?_⟩
  · unfold verify_password bcryptCheckpw hash_password
    rw [show (String.mk (bcryptHashpw pw.data salt.data)).data =
        bcryptHashpw pw.data salt.data from rfl]
    rw [bcryptParse_hashpw _ _ hs]
    simp
  · intro other hne
    unfold verify_password bcryptCheckpw hash_password
    rw [show (String.mk (bcryptHashpw pw.data salt.data)).data =
        bcryptHashpw pw.data salt.data from rfl]
    rw [bcryptParse_hashpw _ _ hs]
    simp only [bcryptDigest]
    have : other.data ≠ pw.data := by
      intro hdata
      apply hne
      cases other with
      | mk od =>
        cases pw with
        | mk pd => exact congrArg String.mk hdata
    simp [this]
  · intro p h hparse
    unfold verify_password bcryptCheckpw
    rw [hparse]

/-- Witness for C5: a concrete round trip, a concrete rejection of a wrong
password, and a concrete malformed hash. -/
theorem verify_password_spec_witness :
    verify_password "pw123456" (hash_password "pw123456" exSalt) = true ∧
    verify_password "letmein1" (hash_password "pw123456" exSalt) = false ∧
    verify_password "pw123456" "garbage" = false :=
  have h := verify_password_spec "pw123456" exSalt (by decide)
  ⟨h.1, h.2.1 "letmein1" (by decide), h.2.2 "pw123456" "garbage" (by decide)⟩

/-- Replacing a single character by a single character is a character map. -/
theorem pyReplaceChar_single (a b : Char) :
    ∀ s : List Char, pyReplaceChar a [b] s = s.map (fun c => if c == a then b else c)
  | [] => rfl
  | c :: rest => by
    by_cases hc : c = a
    · simp [pyReplaceChar, hc, pyReplaceChar_single a b rest]
    · simp [pyReplaceChar, hc, pyReplaceChar_single a b rest]

/-- Replacing a single character by the empty string is a filter. -/
theorem pyReplaceChar_del (a : Char) :
    ∀ s : List Char, pyReplaceChar a [] s = s.filter (fun c => !(c == a))
  | [] => rfl
  | c :: rest => by
    by_cases hc : c = a
    · simp [pyReplaceChar, hc, pyReplaceChar_del a rest]
    · simp [pyReplaceChar, hc, pyReplaceChar_del a rest]

/-- The code's subdomain derivation coincides with the spec's wording. -/
theorem deriveSubdomain_eq_spec (s : String) : deriveSubdomain s = subdomainSpec s := by
  have hdash : ("-" : String).data = ['-'] := rfl
  have hnil : ("" : String).data = [] := rfl
  simp [deriveSubdomain, subdomainSpec, pyReplace, pyLower, hdash, hnil,
    pyReplaceChar_single, pyReplaceChar_del]

/-- C7: for every step-1 submission that passes validation, the candidate
subdomain stored in the wizard session is the studio name lower-cased with
every space replaced by a hyphen and every apostrophe removed; in particular
the name "Jane's Photo Co" yields "janes-photo-co". -/
theorem signup_subdomain_spec (st : ServerState) (f : SignupForm)
    (hpw : f.password = f.confirm_password) (hlen : 8 ≤ f.password.length) :
    (signupPost st f).1.sess.signup_subdomain = some (subdomainSpec f.studio_name) ∧
    subdomainSpec "Jane\x27s Photo Co" = "janes-photo-co" := by
  constructor
  · have h1 : ¬f.password ≠ f.confirm_password := fun hne => hne hpw
    have h2 : ¬f.password.length < 8 := by omega
    simp [signupPost, h1, h2, deriveSubdomain_eq_spec]
  · decide

/-- Witness for C7 on the fixture form. -/
theorem signup_subdomain_spec_witness :
    (signupPost { db := {}, sess := {} } exForm).1.sess.signup_subdomain =
      some (subdomainSpec exForm.studio_name) ∧
    subdomainSpec "Jane\x27s Photo Co" = "janes-photo-co" :=
  signup_subdomain_spec { db := {}, sess := {} } exForm (by decide) (by decide)

/-- C3: a step-1 submission with mismatched passwords, or with a password
shorter than 8 characters, changes neither the store nor the session (no row
created, no wizard key written), stays at the initial step, and surfaces the
specific message, the mismatch check coming first. -/
theorem signup_validation_spec (st : ServerState) (f : SignupForm)
    (h : f.password ≠ f.confirm_password ∨ f.password.length < 8) :
    (signupPost st f).1 = st ∧
    (signupPost st f).2 = SignupOutcome.stay
      (if f.password ≠ f.confirm_password then "Passwords do not match"
       else "Password must be at least 8 characters") := by
  by_cases hc : f.password ≠ f.confirm_password
  · simp [signupPost, hc]
  · have hlen : f.password.length < 8 := h.resolve_left hc
    simp [signupPost, hc, hlen]

/-- Witness for C3: the mismatched fixture form is rejected without any state
change. -/
theorem signup_validation_spec_witness :
    (signupPost { db := {}, sess := {} } exBadForm).1 = { db := {}, sess := {} } ∧
    (signupPost { db := {}, sess := {} } exBadForm).2 = SignupOutcome.stay
      (if exBadForm.password ≠ exBadForm.confirm_password then "Passwords do not match"
       else "Password must be at least 8 characters") :=
  signup_validation_spec { db := {}, sess := {} } exBadForm (Or.inl (by decide))

/-- Updating the first match is the identity when every matching element is
already a fixed point of the update. -/
theorem updateFirst_eq_self {α : Type} (p : α → Bool) (f : α → α) :
    ∀ l : List α, (∀ x ∈ l, p x = true → f x = x) → updateFirst p f l = l
  | [], _ => rfl
  | x :: xs, h => by
    by_cases hx : p x = true
    · simp [updateFirst, hx, h x (by simp) hx]
    · simp at hx
      simp [updateFirst, hx]
      exact updateFirst_eq_self p f xs (fun y hy hpy => h y (by simp [hy]) hpy)

/-- Updating the first match preserves the number of matches when the update
does not change matching. -/
theorem countP_updateFirst {α : Type} (p : α → Bool) (f : α → α)
    (hf : ∀ x, p (f x) = p x) :
    ∀ l : List α, (updateFirst p f l).countP p = l.countP p
  | [] => rfl
  | x :: xs => by
    by_cases hx : p x = true
    · simp [updateFirst, hx, List.countP_cons, hf]
    · simp at hx
      simp [updateFirst, hx, List.countP_cons, countP_updateFirst p f hf xs]

/-- In a list with at most one match, every matching element remaining after
`updateFirst` is the image of a matching element. -/
theorem updateFirst_matches {α : Type} (p : α → Bool) (f : α → α) :
    ∀ l : List α, l.countP p ≤ 1 →
      ∀ r ∈ updateFirst p f l, p r = true → ∃ x, p x = true ∧ r = f x
  | [], _, r, hr, _ => absurd hr (List.not_mem_nil r)
  | x :: xs, h, r, hr, hpr => by
    by_cases hx : p x = true
    · rw [updateFirst, if_pos hx] at hr
      rcases List.mem_cons.mp hr with hfx | hmem
      · exact ⟨x, hx, hfx⟩
      · exfalso
        have hcons : (x :: xs).countP p = xs.countP p + 1 := by
          simp [List.countP_cons, hx]
        have hxs : xs.countP p = 0 := by omega
        exact List.countP_eq_zero.mp hxs r hmem hpr
    · simp at hx
      rw [updateFirst, if_neg (by simp [hx] : ¬p x = true)] at hr
      rcases List.mem_cons.mp hr with hrx | hmem
      · exact absurd (hrx ▸ hpr) (by simp [hx])
      · have hcons : (x :: xs).countP p = xs.countP p := by
          simp [List.countP_cons, hx]
        have hle : xs.countP p ≤ 1 := by omega
        exact updateFirst_matches p f xs hle r hmem hpr

/-- Setting `enabled` to its current value is the identity on a feature row. -/
theorem StudioFeature.set_enabled_self (r : StudioFeature) (e : Bool)
    (h : r.enabled = e) : { r with enabled := e } = r := by
  cases r
  simp_all

/-- Reduction of `toggle_feature` when a row for the pair exists. -/
theorem toggle_feature_found (d : DB) (nid tid key : String) (e : Bool) (r : StudioFeature)
    (hf : d.studio_features.find?
      (fun x => x.studio_id == tid && x.feature_key == key) = some r) :
    toggle_feature d nid tid key e =
      ({ d with studio_features :=
          (updateFirst (fun x => x.studio_id == tid && x.feature_key == key)
            (fun x => { x with enabled := e }) d.studio_features) },
       { r with enabled := e }) := by
  simp [toggle_feature, hf]

/-- Reduction of `toggle_feature` when no row for the pair exists. -/
theorem toggle_feature_notfound (d : DB) (nid tid key : String) (e : Bool)
    (hf : d.studio_features.find?
      (fun x => x.studio_id == tid && x.feature_key == key) = none) :
    toggle_feature d nid tid key e =
      ({ d with studio_features := d.studio_features ++
          [{ id := nid, studio_id := tid, feature_key := key, enabled := e }] },
       { id := nid, studio_id := tid, feature_key := key, enabled := e }) := by
  simp [toggle_feature, hf]

/-- C4: in a store holding at most one feature row for a (tenantId, key)
pair, toggling that feature leaves exactly one row for the pair, carrying the
given enabled value, and calling `toggle_feature` again with the same
arguments is a no-op on the store (upsert idempotence). -/
theorem toggle_feature_idempotent (db : DB) (tid key : String) (e : Bool)
    (id1 id2 : String)
    (h : db.studio_features.countP
        (fun r => r.studio_id == tid && r.feature_key == key) ≤ 1) :
    ((toggle_feature db id1 tid key e).1.studio_features.countP
        (fun r => r.studio_id == tid && r.feature_key == key) = 1) ∧
    (∀ r ∈ (toggle_feature db id1 tid key e).1.studio_features,
      (r.studio_id == tid && r.feature_key == key) = true → r.enabled = e) ∧
    ((toggle_feature (toggle_feature db id1 tid key e).1 id2 tid key e).1 =
      (toggle_feature db id1 tid key e).1) := by
  have hstable : ∀ x : StudioFeature,
      (({ x with enabled := e } : StudioFeature).studio_id == tid &&
        ({ x with enabled := e } : StudioFeature).feature_key == key) =
      (x.studio_id == tid && x.feature_key == key) := fun _ => rfl
  suffices hAB :
      ((toggle_feature db id1 tid key e).1.studio_features.countP
        (fun r => r.studio_id == tid && r.feature_key == key) = 1) ∧
      (∀ r ∈ (toggle_feature db id1 tid key e).1.studio_features,
        (r.studio_id == tid && r.feature_key == key) = true → r.enabled = e) by
    refine ⟨hAB.1, hAB.2, ?_⟩
    have hex : 0 < (toggle_feature db id1 tid key e).1.studio_features.countP
        (fun r => r.studio_id == tid && r.feature_key == key) := by
      rw [hAB.1]
      exact Nat.one_pos
    obtain ⟨r2, hr2mem, hr2p⟩ := List.countP_pos_iff.mp hex
    have hsome : ((toggle_feature db id1 tid key e).1.studio_features.find?
        (fun r => r.studio_id == tid && r.feature_key == key)).isSome :=
      List.find?_isSome.mpr ⟨r2, hr2mem, hr2p⟩
    obtain ⟨r3, hr3⟩ := Option.isSome_iff_exists.mp hsome
    have hid := updateFirst_eq_self
      (fun x : StudioFeature => x.studio_id == tid && x.feature_key == key)
      (fun x => { x with enabled := e })
      (toggle_feature db id1 tid key e).1.studio_features
      (fun x hx hpx => StudioFeature.set_enabled_self x e (hAB.2 x hx hpx))
    rw [toggle_feature_found _ _ _ _ _ _ hr3]
    show { (toggle_feature db id1 tid key e).1 with studio_features :=
        (updateFirst (fun x => x.studio_id == tid && x.feature_key == key)
          (fun x => { x with enabled := e })
          (toggle_feature db id1 tid key e).1.studio_features) } =
      (toggle_feature db id1 tid key e).1
    rw [hid]
  cases hfind : db.studio_features.find?
      (fun r => r.studio_id == tid && r.feature_key == key) with
  | some r0 =>
    have hdb1 : (toggle_feature db id1 tid key e).1 =
        { db with studio_features :=
            (updateFirst (fun x => x.studio_id == tid && x.feature_key == key)
              (fun x => { x with enabled := e }) db.studio_features) } := by
      rw [toggle_feature_found _ _ _ _ _ _ hfind]
    have hcount : (updateFirst
          (fun x : StudioFeature => x.studio_id == tid && x.feature_key == key)
          (fun x => { x with enabled := e }) db.studio_features).countP
          (fun r => r.studio_id == tid && r.feature_key == key) =
        db.studio_features.countP (fun r => r.studio_id == tid && r.feature_key == key) :=
      countP_updateFirst _ _ hstable db.studio_features
    have hm0 : (r0.studio_id == tid && r0.feature_key == key) = true := by
      have := List.find?_some hfind
      simpa using this
    have hpos : 0 < db.studio_features.countP
        (fun r => r.studio_id == tid && r.feature_key == key) :=
      List.countP_pos_iff.mpr ⟨r0, List.mem_of_find?_eq_some hfind, hm0⟩
    constructor
    · rw [hdb1]
      show (updateFirst (fun x : StudioFeature => x.studio_id == tid && x.feature_key == key)
          (fun x => { x with enabled := e }) db.studio_features).countP
          (fun r => r.studio_id == tid && r.feature_key == key) = 1
      omega
    · intro r hr hpr
      rw [hdb1] at hr
      obtain ⟨x, hx, rfl⟩ := updateFirst_matches
        (fun r : StudioFeature => r.studio_id == tid && r.feature_key == key)
        (fun x => { x with enabled := e }) db.studio_features h r hr hpr
      rfl
  | none =>
    have hzero : db.studio_features.countP
        (fun r => r.studio_id == tid && r.feature_key == key) = 0 :=
      List.countP_eq_zero.mpr (List.find?_eq_none.mp hfind)
    have hdb1 : (toggle_feature db id1 tid key e).1 =
        { db with studio_features := db.studio_features ++
            [{ id := id1, studio_id := tid, feature_key := key, enabled := e }] } := by
      rw [toggle_feature_notfound _ _ _ _ _ hfind]
    constructor
    · rw [hdb1]
      show (db.studio_features ++
          [({ id := id1, studio_id := tid, feature_key := key, enabled := e } :
            StudioFeature)]).countP
          (fun r : StudioFeature => r.studio_id == tid && r.feature_key == key) = 1
      rw [List.countP_append, hzero]
      simp [List.countP_cons]
    · intro r hr hpr
      rw [hdb1] at hr
      simp only [List.mem_append, List.mem_singleton] at hr
      rcases hr with hmem | rfl
      · exact absurd hpr (by simpa using List.countP_eq_zero.mp hzero r hmem)
      · rfl

/-- Witness for C4: toggling a feature twice on the empty store. -/
theorem toggle_feature_idempotent_witness :
    ((toggle_feature {} "f1" "s1" "analytics" true).1.studio_features.countP
        (fun r => r.studio_id == "s1" && r.feature_key == "analytics") = 1) ∧
    ((toggle_feature (toggle_feature {} "f1" "s1" "analytics" true).1
        "f2" "s1" "analytics" true).1 =
      (toggle_feature {} "f1" "s1" "analytics" true).1) :=
  have h := toggle_feature_idempotent {} "s1" "analytics" true "f1" "f2" (by decide)
  ⟨h.1, h.2.2⟩

/-- C2: when the completion attempt reaches persistence and the commit
raises — a uniqueness collision on subdomain or email, or any other database
fault — no Tenant, TenantDomain or User row is committed, no wizard session
key is cleared (the wizard stays at the branding step for retry), and the
surfaced message is obtained by substring-matching the raised error text for
the subdomain markers, then the email markers, else passing it through. -/
theorem branding_failure_spec (st : ServerState)
    (brand_color typography logo_url photo_url : Option String)
    (studio_id domain_id user_id salt : String) (ext_fault : Bool) (err_text : String)
    (hplan : st.sess.signup_plan ≠ none)
    (hfail : brandingFails st salt studio_id domain_id user_id ext_fault = true) :
    (signupBrandingPost st brand_color typography logo_url photo_url
        studio_id domain_id user_id salt ext_fault err_text =
      (st, BrandingOutcome.failRender (classifyError st.sess err_text))) ∧
    ((pyIn "ix_studios_subdomain" err_text || pyIn "subdomain" (pyLower err_text)) = true →
      classifyError st.sess err_text =
        "The subdomain \x27" ++ pyStr st.sess.signup_subdomain ++
          "\x27 is already taken. Please go back and choose a different one.") ∧
    ((pyIn "ix_studios_subdomain" err_text || pyIn "subdomain" (pyLower err_text)) = false →
      (pyIn "ix_studios_email" err_text || pyIn "studios_email" (pyLower err_text)) = true →
      classifyError st.sess err_text =
        "The email \x27" ++ pyStr st.sess.signup_email ++ "\x27 is already registered.") ∧
    ((pyIn "ix_studios_subdomain" err_text || pyIn "subdomain" (pyLower err_text)) = false →
      (pyIn "ix_studios_email" err_text || pyIn "studios_email" (pyLower err_text)) = false →
      classifyError st.sess err_text = err_text) := by
  refine ⟨?_, ?_, ?_, ?_⟩
  · simp [signupBrandingPost, hplan, hfail]
  · intro hc
    simp [classifyError, hc]
  · intro hc1 hc2
    simp [classifyError, hc1, hc2]
  · intro hc1 hc2
    simp [classifyError, hc1, hc2]

/-- Witness for C2: the conflicting fixture session commits into a store
already holding the owner email, and the branding handler reports the
translated failure while leaving the state alone. -/
theorem branding_failure_spec_witness :
    signupBrandingPost exConflictState none none none none
        "sid-1" "did-1" "uid-1" exSalt false
        "UNIQUE constraint failed: studios.subdomain" =
      (exConflictState, BrandingOutcome.failRender
        (classifyError exConflictState.sess
          "UNIQUE constraint failed: studios.subdomain")) :=
  (branding_failure_spec exConflictState none none none none
    "sid-1" "did-1" "uid-1" exSalt false
    "UNIQUE constraint failed: studios.subdomain"
    (by decide) (by decide)).1

/-- Appending a fresh matching element to a list with no match filters to
exactly that element. -/
theorem filter_append_fresh {α : Type} (p : α → Bool) (l : List α) (x : α)
    (hl : l.any p = false) (hx : p x = true) :
    (l ++ [x]).filter p = [x] := by
  rw [List.filter_append]
  have h1 : l.filter p = [] :=
    List.filter_eq_nil_iff.mpr (List.any_eq_false.mp hl)
  rw [h1]
  simp [hx]

/-- Reduction of `signupBrandingPost` when the plan is chosen and the commit
does not raise: the three rows (with branding applied to the studio) are
committed and the wizard session is cleared. -/
theorem signupBrandingPost_success (st : ServerState)
    (brand_color typography logo_url photo_url : Option String)
    (studio_id domain_id user_id salt : String) (ext_fault : Bool) (err_text : String)
    (hplan : ¬st.sess.signup_plan = none)
    (hfail : brandingFails st salt studio_id domain_id user_id ext_fault = false) :
    signupBrandingPost st brand_color typography logo_url photo_url
        studio_id domain_id user_id salt ext_fault err_text =
      ({ db := { st.db with
            studios := (st.db.studios ++
              [{ (brandingRows st.sess salt studio_id domain_id user_id).1 with
                  brand_color := brand_color.getD "#0EA5E9",
                  typography := typography.getD "Modern (Inter)",
                  logo_url := logo_url,
                  studio_photo := photo_url }]),
            studio_domains := (st.db.studio_domains ++
              [(brandingRows st.sess salt studio_id domain_id user_id).2.1]),
            users := (st.db.users ++
              [(brandingRows st.sess salt studio_id domain_id user_id).2.2]) },
          sess := {} },
       BrandingOutcome.toComplete studio_id) := by
  simp only [signupBrandingPost]
  rw [if_neg hplan,
    if_neg (by simp [hfail] :
      ¬brandingFails st salt studio_id domain_id user_id ext_fault = true)]
  cases logo_url <;> cases photo_url <;> rfl

/-- C1: completing all three wizard steps with a valid submission (matching
passwords of at least 8 characters) against a store holding no conflicting
row commits exactly one Studio row, exactly one primary unverified
StudioDomain row referencing it, and exactly one studio_owner User row
referencing it whose username is the owner email, and clears all seven
wizard session keys. -/
theorem signup_flow_spec
    (st0 : ServerState) (f : SignupForm) (planArg : Option String)
    (brand_color typography logo_url photo_url : Option String)
    (studio_id domain_id user_id salt err_text : String)
    (hpw : f.password = f.confirm_password) (hlen : 8 ≤ f.password.length)
    (h1 : st0.db.studios.any (fun s => s.email == f.email) = false)
    (h2 : st0.db.studios.any
      (fun s => s.subdomain == some (deriveSubdomain f.studio_name) &&
        s.subdomain.isSome) = false)
    (h3 : st0.db.studio_domains.any (fun x => x.domain == f.domain) = false)
    (h4 : st0.db.users.any
      (fun x => x.email == f.email || x.username == f.email) = false)
    (h5 : st0.db.studios.any (fun s => s.id == studio_id) = false)
    (h6 : st0.db.studio_domains.any (fun x => x.studio_id == studio_id) = false)
    (h7 : st0.db.users.any (fun u => u.studio_id == some studio_id) = false) :
    ((signupFlow st0 f planArg brand_color typography logo_url photo_url
        studio_id domain_id user_id salt false err_text).2.1 =
      SignupOutcome.toPlan) ∧
    ((signupFlow st0 f planArg brand_color typography logo_url photo_url
        studio_id domain_id user_id salt false err_text).2.2.1 =
      PlanOutcome.toBranding) ∧
    ((signupFlow st0 f planArg brand_color typography logo_url photo_url
        studio_id domain_id user_id salt false err_text).2.2.2 =
      BrandingOutcome.toComplete studio_id) ∧
    ((signupFlow st0 f planArg brand_color typography logo_url photo_url
        studio_id domain_id user_id salt false err_text).1.sess = {}) ∧
    ((signupFlow st0 f planArg brand_color typography logo_url photo_url
        studio_id domain_id user_id salt false err_text).1.db.studios.filter
        (fun s => s.id == studio_id) =
      [{ id := studio_id, name := f.studio_name, email := f.email,
         subdomain := some (deriveSubdomain f.studio_name),
         brand_color := brand_color.getD "#0EA5E9",
         typography := typography.getD "Modern (Inter)",
         logo_url := logo_url, studio_photo := photo_url,
         subscription_tier := planArg.getD "starter",
         subscription_status := "trial",
         onboarding_step := some "pending", onboarding_completed := false,
         is_active := true }]) ∧
    ((signupFlow st0 f planArg brand_color typography logo_url photo_url
        studio_id domain_id user_id salt false err_text).1.db.studio_domains.filter
        (fun d => d.studio_id == studio_id) =
      [{ id := domain_id, studio_id := studio_id, domain := f.domain,
         is_primary := true, is_verified := false }]) ∧
    ((signupFlow st0 f planArg brand_color typography logo_url photo_url
        studio_id domain_id user_id salt false err_text).1.db.users.filter
        (fun u => u.studio_id == some studio_id) =
      [{ id := user_id, studio_id := some studio_id, name := f.owner_name,
         email := f.email, username := f.email,
         password_hash := some (hash_password f.password salt),
         role := "studio_owner" }]) := by
  have hne : ¬f.password ≠ f.confirm_password := fun hx => hx hpw
  have hlt : ¬f.password.length < 8 := by omega
  have e1 : signupPost st0 f =
      ({ st0 with sess :=
          { st0.sess with
            signup_studio_name := some f.studio_name
            signup_domain := some f.domain
            signup_email := some f.email
            signup_owner_name := some f.owner_name
            signup_password := some f.password
            signup_subdomain := some (deriveSubdomain f.studio_name) } },
       SignupOutcome.toPlan) := by
    rw [signupPost, if_neg hne, if_neg hlt]
  have e2 : signupPlanPost (signupPost st0 f).1 planArg =
      ({ st0 with sess :=
          { st0.sess with
            signup_studio_name := some f.studio_name
            signup_domain := some f.domain
            signup_email := some f.email
            signup_owner_name := some f.owner_name
            signup_password := some f.password
            signup_subdomain := some (deriveSubdomain f.studio_name)
            signup_plan := some (planArg.getD "starter") } },
       PlanOutcome.toBranding) := by
    rw [e1]
    rfl
  have hplan2 : ¬(signupPlanPost (signupPost st0 f).1 planArg).1.sess.signup_plan = none := by
    rw [e2]
    simp
  have hfail0 : brandingFails (signupPlanPost (signupPost st0 f).1 planArg).1
      salt studio_id domain_id user_id false = false := by
    rw [e2]
    simp [brandingFails, brandingRows, create_studio, insertViolation,
      hash_password, h1, h2, h3, h4]
  have esucc := signupBrandingPost_success
    ((signupPlanPost (signupPost st0 f).1 planArg).1)
    brand_color typography logo_url photo_url
    studio_id domain_id user_id salt false err_text hplan2 hfail0
  refine ⟨?_, ?_, ?_, ?_, ?_, ?_, ?_⟩
  · show (signupPost st0 f).2 = SignupOutcome.toPlan
    rw [e1]
  · show (signupPlanPost (signupPost st0 f).1 planArg).2 = PlanOutcome.toBranding
    rw [e2]
  · show (signupBrandingPost (signupPlanPost (signupPost st0 f).1 planArg).1
        brand_color typography logo_url photo_url
        studio_id domain_id user_id salt false err_text).2 =
      BrandingOutcome.toComplete studio_id
    rw [esucc]
  · show (signupBrandingPost (signupPlanPost (signupPost st0 f).1 planArg).1
        brand_color typography logo_url photo_url
        studio_id domain_id user_id salt false err_text).1.sess = {}
    rw [esucc]
  · show ((signupBrandingPost (signupPlanPost (signupPost st0 f).1 planArg).1
        brand_color typography logo_url photo_url
        studio_id domain_id user_id salt false err_text).1.db.studios.filter
        (fun s => s.id == studio_id) = _)
    rw [esucc, e2]
    exact filter_append_fresh _ st0.db.studios _ h5 (by simp [brandingRows, create_studio])
  · show ((signupBrandingPost (signupPlanPost (signupPost st0 f).1 planArg).1
        brand_color typography logo_url photo_url
        studio_id domain_id user_id salt false err_text).1.db.studio_domains.filter
        (fun d => d.studio_id == studio_id) = _)
    rw [esucc, e2]
    exact filter_append_fresh _ st0.db.studio_domains _ h6 (by simp [brandingRows, create_studio])
  · show ((signupBrandingPost (signupPlanPost (signupPost st0 f).1 planArg).1
        brand_color typography logo_url photo_url
        studio_id domain_id user_id salt false err_text).1.db.users.filter
        (fun u => u.studio_id == some studio_id) = _)
    rw [esucc, e2]
    exact filter_append_fresh _ st0.db.users _ h7 (by simp [brandingRows, create_studio])

/-- Witness for C1: the fixture form run through the whole wizard against the
empty store ends at the completion redirect with a cleared session and the
single committed primary unverified domain row. -/
theorem signup_flow_spec_witness :
    ((signupFlow ⟨{}, {}⟩ exForm (some "professional") none none none none
        "sid-1" "did-1" "uid-1" exSalt false "").2.2.2 =
      BrandingOutcome.toComplete "sid-1") ∧
    ((signupFlow ⟨{}, {}⟩ exForm (some "professional") none none none none
        "sid-1" "did-1" "uid-1" exSalt false "").1.sess = {}) ∧
    ((signupFlow ⟨{}, {}⟩ exForm (some "professional") none none none none
        "sid-1" "did-1" "uid-1" exSalt false "").1.db.studio_domains.filter
        (fun d => d.studio_id == "sid-1") =
      [{ id := "did-1", studio_id := "sid-1", domain := exForm.domain,
         is_primary := true, is_verified := false }]) :=
  have h := signup_flow_spec ⟨{}, {}⟩ exForm (some "professional") none none none none
    "sid-1" "did-1" "uid-1" exSalt "" (by decide) (by decide)
    rfl rfl rfl rfl rfl rfl rfl
  ⟨h.2.2.1, h.2.2.2.1, h.2.2.2.2.2.1⟩

end PhotoProof
